import Mathlib

/-!
Verification development for the Intuit MCP server
(src/intuit_mcp_server.py).

The Python source is shallowly embedded: JSON values decoded by
json.loads become the inductive Json; Python dicts of string keys are
insertion-ordered association lists; network effects are modelled by an
environment providing the response each remote endpoint would give;
raised Python exceptions become the error side of Except; the mutable
process-wide token cache is passed and returned explicitly.
-/

/-- A JSON value as produced by json.loads: null, booleans, numbers
(integral numbers suffice for every value the program manipulates),
strings, arrays and objects (insertion-ordered key/value lists). -/
inductive Json where
  | null : Json
  | bool : Bool → Json
  | num : Int → Json
  | str : String → Json
  | arr : List Json → Json
  | obj : List (String × Json) → Json

mutual

/-- Structural equality of JSON values, the meaning of Python == on
values decoded from JSON. -/
def jbeq : Json → Json → Bool
  | .null, .null => true
  | .bool a, .bool b => a = b
  | .num a, .num b => a = b
  | .str a, .str b => a = b
  | .arr a, .arr b => jbeqList a b
  | .obj a, .obj b => jbeqObj a b
  | _, _ => false

/-- Pointwise equality of JSON arrays. -/
def jbeqList : List Json → List Json → Bool
  | [], [] => true
  | a :: as, b :: bs => jbeq a b && jbeqList as bs
  | _, _ => false

/-- Pointwise equality of JSON objects (Python dict == is order
insensitive, but the program only ever compares strings, where the two
notions agree; ordered comparison is kept for executability). -/
def jbeqObj : List (String × Json) → List (String × Json) → Bool
  | [], [] => true
  | (ka, va) :: as, (kb, vb) :: bs => ka = kb && jbeq va vb && jbeqObj as bs
  | _, _ => false

end

/-- Python truthiness of a decoded JSON value: None, False, 0, empty
string, empty list and empty dict are falsy. -/
def Json.truthy : Json → Bool
  | .null => false
  | .bool b => b
  | .num n => decide (n ≠ 0)
  | .str s => !s.isEmpty
  | .arr xs => !xs.isEmpty
  | .obj kvs => !kvs.isEmpty

/-- First-match lookup in an insertion-ordered Python dict. -/
def dictLookup (d : List (String × Json)) (k : String) : Option Json :=
  match d with
  | [] => none
  | (k2, v) :: rest => if k2 = k then some v else dictLookup rest k

/-- Python dict key-containment test restricted to objects; false on
every other value (used only where an object is statically known). -/
def jsonHasKey (j : Json) (k : String) : Bool :=
  match j with
  | .obj kvs => (dictLookup kvs k).isSome
  | _ => false

/-- s[:n] on a Python string. -/
def strTake (s : String) (n : Nat) : String :=
  String.mk (s.toList.take n)

/-- Exact match of a list against the front of another list. -/
def leadsWith : List Char → List Char → Bool
  | [], _ => true
  | _ :: _, [] => false
  | a :: as, b :: bs => decide (a = b) && leadsWith as bs

/-- Contiguous-sublist test on character lists. -/
def hasSubList (needle : List Char) : List Char → Bool
  | [] => leadsWith needle []
  | c :: rest => leadsWith needle (c :: rest) || hasSubList needle rest

/-- The Python substring test sub in s. -/
def strContains (sub s : String) : Bool :=
  hasSubList sub.toList s.toList

/-- str.lower() for the ASCII strings the program handles. -/
def pyLower (s : String) : String :=
  String.mk (s.toList.map Char.toLower)

/-- A Python exception relevant to the program: httpx.RequestError,
httpx.HTTPStatusError (carrying the response it wraps), or any other
exception reduced to its message. -/
inductive PyExn where
  | requestError (msg : String)
  | httpStatusError (status : Nat) (text : String)
  | otherExn (msg : String)
deriving DecidableEq

/-- The outcome of one outbound HTTP exchange: either the transport
layer raised httpx.RequestError, or a response with a status code and
a body text arrived (response.json() is modelled by parsing the text). -/
inductive NetResult where
  | reqError (msg : String)
  | httpResp (status : Nat) (text : String)
deriving DecidableEq

/- ## JSON parsing (json.loads) -/

/-- Skip JSON whitespace. -/
def skipWs : List Char → List Char
  | c :: rest =>
      if c = ' ' || c = '\t' || c = '\n' || c = '\r' then skipWs rest
      else c :: rest
  | [] => []

/-- Decode one escape character of a JSON string literal. -/
def unescapeChar (c : Char) : Option Char :=
  if c = '"' then some '"'
  else if c = '\\' then some '\\'
  else if c = '/' then some '/'
  else if c = 'n' then some '\n'
  else if c = 't' then some '\t'
  else if c = 'r' then some '\r'
  else if c = 'b' then some (Char.ofNat 8)
  else if c = 'f' then some (Char.ofNat 12)
  else none

/-- Parse the remainder of a JSON string literal after the opening
quote, returning its characters and the rest of the input. -/
def pStrBody : List Char → Option (List Char × List Char)
  | [] => none
  | '\\' :: e :: rest => do
      let ec ← unescapeChar e
      let (s, r) ← pStrBody rest
      some (ec :: s, r)
  | '"' :: rest => some ([], rest)
  | c :: rest => do
      let (s, r) ← pStrBody rest
      some (c :: s, r)

/-- Take a maximal run of decimal digits. -/
def takeDigits : List Char → List Char × List Char
  | c :: rest =>
      if c.isDigit then
        let (ds, r) := takeDigits rest
        (c :: ds, r)
      else ([], c :: rest)
  | [] => ([], [])

/-- Digits to the natural number they denote. -/
def digitsToNat (ds : List Char) : Nat :=
  ds.foldl (fun acc c => acc * 10 + (c.toNat - 48)) 0

/-- Parse one or more comma-separated array items up to the closing
bracket, given a parser for a single value. -/
def pArrItems (pv : List Char → Option (Json × List Char)) :
    Nat → List Char → Option (List Json × List Char)
  | 0, _ => none
  | fuel + 1, cs => do
      let (j, r) ← pv cs
      match skipWs r with
      | ',' :: r2 => do
          let (js, r3) ← pArrItems pv fuel (skipWs r2)
          some (j :: js, r3)
      | ']' :: r2 => some ([j], r2)
      | _ => none

/-- Parse one or more comma-separated object members up to the closing
brace, given a parser for a single value. -/
def pObjItems (pv : List Char → Option (Json × List Char)) :
    Nat → List Char → Option (List (String × Json) × List Char)
  | 0, _ => none
  | fuel + 1, cs =>
      match skipWs cs with
      | '"' :: r => do
          let (kcs, r2) ← pStrBody r
          match skipWs r2 with
          | ':' :: r3 => do
              let (v, r4) ← pv (skipWs r3)
              match skipWs r4 with
              | ',' :: r5 => do
                  let (kvs, r6) ← pObjItems pv fuel (skipWs r5)
                  some ((String.mk kcs, v) :: kvs, r6)
              | '\x7d' :: r5 => some ([(String.mk kcs, v)], r5)
              | _ => none
          | _ => none
      | _ => none

/-- Fuel-bounded parser for one JSON value, returning the value and
the unconsumed rest of the input. -/
def pVal : Nat → List Char → Option (Json × List Char)
  | 0, _ => none
  | fuel + 1, cs =>
      match skipWs cs with
      | 'n' :: 'u' :: 'l' :: 'l' :: r => some (.null, r)
      | 't' :: 'r' :: 'u' :: 'e' :: r => some (.bool true, r)
      | 'f' :: 'a' :: 'l' :: 's' :: 'e' :: r => some (.bool false, r)
      | '"' :: r => do
          let (scs, r2) ← pStrBody r
          some (.str (String.mk scs), r2)
      | '[' :: r =>
          (match skipWs r with
           | ']' :: r2 => some (.arr [], r2)
           | _ => do
               let (js, r2) ← pArrItems (pVal fuel) fuel (skipWs r)
               some (.arr js, r2))
      | '\x7b' :: r =>
          (match skipWs r with
           | '\x7d' :: r2 => some (.obj [], r2)
           | _ => do
               let (kvs, r2) ← pObjItems (pVal fuel) fuel (skipWs r)
               some (.obj kvs, r2))
      | '-' :: r =>
          (match takeDigits r with
           | ([], _) => none
           | (ds, r2) => some (.num (-(Int.ofNat (digitsToNat ds))), r2))
      | c :: r =>
          if c.isDigit then
            match takeDigits (c :: r) with
            | (ds, r2) => some (.num (Int.ofNat (digitsToNat ds)), r2)
          else none
      | [] => none

/-- json.loads for the JSON subset the program exchanges: succeeds only
when the whole input (up to trailing whitespace) is one JSON value. -/
def json_loads (s : String) : Option Json :=
  match pVal (s.length + 2) s.toList with
  | some (j, rest) => if skipWs rest = [] then some j else none
  | none => none

/- ## JSON serialization (json.dumps) -/

/-- Escape one character for a JSON string literal. -/
def escChar (c : Char) : String :=
  if c = '"' then "\\\""
  else if c = '\\' then "\\\\"
  else if c = '\n' then "\\n"
  else if c = '\t' then "\\t"
  else if c = '\r' then "\\r"
  else String.mk [c]

/-- Escape a whole string for a JSON string literal. -/
def escapeStr (s : String) : String :=
  String.join (s.toList.map escChar)

mutual

/-- json.dumps with the default separators. -/
def dumpJ : Json → String
  | .null => "null"
  | .bool true => "true"
  | .bool false => "false"
  | .num n => toString n
  | .str s => "\"" ++ escapeStr s ++ "\""
  | .arr xs => "[" ++ dumpArr xs ++ "]"
  | .obj kvs => "\x7b" ++ dumpObj kvs ++ "\x7d"

/-- Comma-joined serialization of array items. -/
def dumpArr : List Json → String
  | [] => ""
  | [j] => dumpJ j
  | j :: rest => dumpJ j ++ ", " ++ dumpArr rest

/-- Comma-joined serialization of object members. -/
def dumpObj : List (String × Json) → String
  | [] => ""
  | [(k, v)] => "\"" ++ escapeStr k ++ "\": " ++ dumpJ v
  | (k, v) :: rest => "\"" ++ escapeStr k ++ "\": " ++ dumpJ v ++ ", " ++ dumpObj rest

end

/- ## Python operations used by the program, with their raising behavior -/

/-- Python j[k] for a string key k: key lookup on dicts (KeyError when
absent), TypeError on every other decoded JSON value. -/
def pyGetItem (j : Json) (k : String) : Except PyExn Json :=
  match j with
  | .obj kvs =>
      match dictLookup kvs k with
      | some v => .ok v
      | none => .error (.otherExn ("KeyError: " ++ k))
  | .arr _ => .error (.otherExn "TypeError: list indices must be integers or slices, not str")
  | .str _ => .error (.otherExn "TypeError: string indices must be integers")
  | _ => .error (.otherExn "TypeError: value is not subscriptable")

/-- Python j[0]: first element of a list (IndexError when empty), first
character of a string, KeyError on dicts, TypeError otherwise. -/
def pyIndexZero : Json → Except PyExn Json
  | .arr [] => .error (.otherExn "IndexError: list index out of range")
  | .arr (x :: _) => .ok x
  | .str s =>
      match s.toList with
      | [] => .error (.otherExn "IndexError: string index out of range")
      | c :: _ => .ok (.str (String.mk [c]))
  | .obj _ => .error (.otherExn "KeyError: 0")
  | _ => .error (.otherExn "TypeError: value is not subscriptable")

/-- Python needle in j: key containment on dicts, membership by == on
lists, substring test on strings, TypeError on every other value. -/
def pyContains (needle : String) : Json → Except PyExn Bool
  | .obj kvs => .ok (dictLookup kvs needle).isSome
  | .arr xs => .ok (xs.any (fun x => jbeq x (.str needle)))
  | .str s => .ok (strContains needle s)
  | _ => .error (.otherExn "TypeError: argument of type is not iterable")

/-- Python j.get(k, dflt): present only on dicts; every other decoded
JSON value raises AttributeError. -/
def pyDictGet (j : Json) (k : String) (dflt : Json) : Except PyExn Json :=
  match j with
  | .obj kvs => .ok ((dictLookup kvs k).getD dflt)
  | _ => .error (.otherExn "AttributeError: object has no attribute get")

/-- Python j[:n]: slicing is defined on strings and lists, TypeError on
every other decoded JSON value. -/
def pySliceJson (j : Json) (n : Nat) : Except PyExn Json :=
  match j with
  | .str s => .ok (.str (strTake s n))
  | .arr xs => .ok (.arr (xs.take n))
  | _ => .error (.otherExn "TypeError: value is not subscriptable")

/-- Python j.lower(): present only on strings; every other decoded JSON
value raises AttributeError. -/
def pyLowerMethod : Json → Except PyExn String
  | .str s => .ok (pyLower s)
  | _ => .error (.otherExn "AttributeError: object has no attribute lower")

/-- Python str(j) as interpolated into the error-detail f-string. -/
def pyStrOf : Json → String
  | .str s => s
  | .num n => toString n
  | .bool true => "True"
  | .bool false => "False"
  | .null => "None"
  | j => dumpJ j

/- ## Process configuration and the token cache -/

/-- The environment variables read once at startup. -/
structure Config where
  clientId : Option String
  clientSecret : Option String
  refreshToken : Option String
  companyId : Option String

/-- Python truthiness of an optional environment string: absent and
empty are both falsy. -/
def optTruthy : Option String → Bool
  | some s => !s.isEmpty
  | none => false

/-- all([INTUIT_CLIENT_ID, INTUIT_CLIENT_SECRET, INTUIT_REFRESH_TOKEN]). -/
def credsOk (cfg : Config) : Bool :=
  optTruthy cfg.clientId && optTruthy cfg.clientSecret && optTruthy cfg.refreshToken

/-- The process-wide token_cache dict: an access token value (None
initially) and an absolute expiry timestamp in seconds. -/
structure TokenCache where
  access_token : Option Json
  expires_at : Int

/-- token_cache as initialized at module load. -/
def token_cache : TokenCache := ⟨none, 0⟩

/-- Truthiness of token_cache["access_token"]. -/
def cacheTokenTruthy (c : TokenCache) : Bool :=
  match c.access_token with
  | some t => t.truthy
  | none => false

/- ## get_access_token -/

/-- Result of one call to get_access_token: the returned token or the
exception it raised, the token cache afterwards, and how many OAuth
network calls were made. -/
structure TokRes where
  val : Except PyExn Json
  cache : TokenCache
  oauthCalls : Nat

/-- get_access_token (src lines 57-115): return the cached token when
it is truthy and expires more than 60 seconds from now; otherwise
perform one OAuth refresh exchange, storing access_token and then
expires_at from the decoded response, re-raising every failure. -/
def get_access_token (cfg : Config) (now : Int) (oauthResp : NetResult)
    (cache : TokenCache) : TokRes :=
  if cacheTokenTruthy cache && decide (cache.expires_at > now + 60) then
    ⟨.ok (cache.access_token.getD .null), cache, 0⟩
  else if !credsOk cfg then
    ⟨.error (.otherExn "Missing required Intuit OAuth credentials"), cache, 0⟩
  else
    match oauthResp with
    | .reqError m => ⟨.error (.requestError m), cache, 1⟩
    | .httpResp status text =>
        if 200 ≤ status ∧ status < 300 then
          match json_loads text with
          | none => ⟨.error (.otherExn "JSONDecodeError: Expecting value"), cache, 1⟩
          | some tokenData =>
              match pyGetItem tokenData "access_token" with
              | .error e => ⟨.error e, cache, 1⟩
              | .ok tok =>
                  -- token_cache["access_token"] is assigned first; a failure
                  -- while computing expires_at leaves this partial update behind
                  let cache1 : TokenCache := ⟨some tok, cache.expires_at⟩
                  match pyGetItem tokenData "expires_in" with
                  | .error e => ⟨.error e, cache1, 1⟩
                  | .ok (.num n) => ⟨.ok tok, ⟨some tok, now + n⟩, 1⟩
                  | .ok (.bool b) => ⟨.ok tok, ⟨some tok, now + (if b then 1 else 0)⟩, 1⟩
                  | .ok _ => ⟨.error (.otherExn "TypeError: unsupported operand types for +"), cache1, 1⟩
        else ⟨.error (.httpStatusError status text), cache, 1⟩

/- ## make_intuit_request -/

/-- The JSON payload POSTed to the GraphQL endpoint: the query value
and, when the variables dict was truthy, the variables. -/
structure Payload where
  query : Json
  vars : Option (List (String × Json))

/-- Result of one call to make_intuit_request: the returned result dict
or the exception that escaped, the token cache afterwards, the OAuth
calls made, and the payload sent to the GraphQL endpoint (none when no
request went out). -/
structure MakeRes where
  val : Except PyExn Json
  cache : TokenCache
  oauthCalls : Nat
  gqlSent : Option Payload

/-- The error envelope shape returned to callers. -/
def errEnvelope (m : String) : Json :=
  .obj [("errors", .arr [.obj [("message", .str m)]])]

/-- The except httpx.HTTPStatusError handler body (src lines 165-180):
build the detail string from the response, catching only JSON-decoding
failures; an index, key or type error raised while extracting
errors[0].message escapes this handler. -/
def statusErrorDetail (status : Nat) (text : String) : Except PyExn String :=
  let base := "HTTP Status Error: " ++ toString status
  match json_loads text with
  | none => .ok (base ++ " - Response: " ++ strTake text 200)
  | some errResp =>
      match pyContains "errors" errResp with
      | .error e => .error e
      | .ok true =>
          match pyGetItem errResp "errors" with
          | .error e => .error e
          | .ok errsVal =>
              match pyIndexZero errsVal with
              | .error e => .error e
              | .ok first =>
                  match pyGetItem first "message" with
                  | .error e => .error e
                  | .ok m => .ok (base ++ " - " ++ pyStrOf m)
      | .ok false =>
          match pyContains "error" errResp with
          | .error e => .error e
          | .ok true =>
              match pyGetItem errResp "error" with
              | .error e => .error e
              | .ok ev =>
                  match pyContains "message" ev with
                  | .error e => .error e
                  | .ok true =>
                      match pyGetItem ev "message" with
                      | .error e => .error e
                      | .ok m => .ok (base ++ " - " ++ pyStrOf m)
                  | .ok false => .ok (base ++ " - Response: " ++ strTake text 200)
          | .ok false => .ok (base ++ " - Response: " ++ strTake text 200)

/-- Dispatch of an exception raised inside the try of
make_intuit_request to its three except clauses (src lines 162-183);
an exception raised inside the status-error handler itself is not
caught by the sibling generic handler and escapes. -/
def handleMakeExn (e : PyExn) : Except PyExn Json :=
  match e with
  | .requestError m => .ok (errEnvelope ("HTTP Request Error connecting to Intuit: " ++ m))
  | .httpStatusError status text =>
      match statusErrorDetail status text with
      | .error e2 => .error e2
      | .ok d => .ok (errEnvelope d)
  | .otherExn m => .ok (errEnvelope ("An unexpected error occurred: " ++ m))

/-- The payload of make_intuit_request (src lines 133-139): the query,
plus the variables when they are truthy, with realmId added when a
company is configured and the key is absent. -/
def payloadFinal (cfg : Config) (query : Json) (vars : Option (List (String × Json))) :
    Payload :=
  -- payload = {"query": query}; if variables: payload["variables"] = variables
  let payload0 : Payload :=
    ⟨query, match vars with
            | some d => if d.isEmpty then none else some d
            | none => none⟩
  -- if INTUIT_COMPANY_ID and "variables" in payload: add realmId if absent
  if optTruthy cfg.companyId then
    match payload0.vars with
    | some d =>
        if (dictLookup d "realmId").isSome then payload0
        else ⟨payload0.query, some (d ++ [("realmId", .str (cfg.companyId.getD ""))])⟩
    | none => payload0
  else payload0

/-- make_intuit_request (src lines 117-183): obtain a token, build the
payload, POST to the GraphQL endpoint and return the decoded body;
exceptions are routed through handleMakeExn. -/
def make_intuit_request (cfg : Config) (now : Int) (oauthResp gqlResp : NetResult)
    (query : Json) (vars : Option (List (String × Json)))
    (cache : TokenCache) : MakeRes :=
  let tok := get_access_token cfg now oauthResp cache
  match tok.val with
  | .error e => ⟨handleMakeExn e, tok.cache, tok.oauthCalls, none⟩
  | .ok _accessToken =>
      let payload1 : Payload := payloadFinal cfg query vars
      -- the debug print slices query[:100] before the request is sent
      match pySliceJson query 100 with
      | .error e => ⟨handleMakeExn e, tok.cache, tok.oauthCalls, none⟩
      | .ok _ =>
          match gqlResp with
          | .reqError m =>
              ⟨handleMakeExn (.requestError m), tok.cache, tok.oauthCalls, some payload1⟩
          | .httpResp status text =>
              if 200 ≤ status ∧ status < 300 then
                match json_loads text with
                | none =>
                    ⟨handleMakeExn (.otherExn "JSONDecodeError: Expecting value"),
                     tok.cache, tok.oauthCalls, some payload1⟩
                | some result =>
                    -- if "errors" in result: (only logged) — raises on
                    -- values that do not support membership testing
                    match pyContains "errors" result with
                    | .error e => ⟨handleMakeExn e, tok.cache, tok.oauthCalls, some payload1⟩
                    | .ok _ => ⟨.ok result, tok.cache, tok.oauthCalls, some payload1⟩
              else
                ⟨handleMakeExn (.httpStatusError status text),
                 tok.cache, tok.oauthCalls, some payload1⟩

/- ## intuit_execute_graphql -/

/-- The remote world one tool invocation can touch: the current time,
the OAuth responses for the first and a possible second token request,
and the GraphQL and REST fallback responses. -/
structure Env where
  now : Int
  oauth1 : NetResult
  oauth2 : NetResult
  gql : NetResult
  rest : NetResult

/-- Result of one tool invocation: the returned JSON string or the
exception that escaped, the token cache afterwards, the OAuth calls
made, the GraphQL payload sent, whether the fallback try-block was
entered and whether the REST GET went out. -/
structure ToolRes where
  val : Except PyExn String
  cache : TokenCache
  oauthCalls : Nat
  gqlSent : Option Payload
  fallbackTried : Bool
  restSent : Bool

/-- Input normalization of the tool (src lines 320-337): parse the
query as JSON; a decoded object with a "query" key supplies the query
value; the nested variables are adopted only when processed_variables
is None, which is never the case since it was just assigned
(variables or empty dict). -/
def normalizeQuery (query : String) (vars : Option (List (String × Json))) :
    Json × List (String × Json) :=
  -- processed_variables = variables or {}
  let processed_variables : Option (List (String × Json)) := some (vars.getD [])
  match json_loads query with
  | some (.obj kvs) =>
      match dictLookup kvs "query" with
      | some qv =>
          -- if "variables" in query_json and processed_variables is None:
          let pv2 :=
            if (dictLookup kvs "variables").isSome && processed_variables.isNone then
              match dictLookup kvs "variables" with
              | some (.obj vkvs) => some vkvs
              | _ => processed_variables
            else processed_variables
          (qv, pv2.getD [])
      | none => (.str query, processed_variables.getD [])
  | some _ => (.str query, processed_variables.getD [])
  | none => (.str query, processed_variables.getD [])

/-- The REST fallback try-block (src lines 353-380): acquire a token,
GET the company-info endpoint, and on status 200 with a decodable body
replace the result by the hand-mapped company object; any exception is
swallowed, keeping the original result. -/
def companyFallback (cfg : Config) (now : Int) (oauth2 restResp : NetResult)
    (cache : TokenCache) (origResult : Json) : Json × TokenCache × Nat × Bool :=
  let tok := get_access_token cfg now oauth2 cache
  match tok.val with
  | .error _ => (origResult, tok.cache, tok.oauthCalls, false)
  | .ok _accessToken =>
      match restResp with
      | .reqError _ => (origResult, tok.cache, tok.oauthCalls, true)
      | .httpResp status text =>
          if status = 200 then
            match json_loads text with
            | none => (origResult, tok.cache, tok.oauthCalls, true)
            | some restResult =>
                match pyDictGet restResult "CompanyInfo" (.obj []) with
                | .error _ => (origResult, tok.cache, tok.oauthCalls, true)
                | .ok ci =>
                    match pyDictGet ci "CompanyName" .null,
                          pyDictGet ci "LegalName" .null,
                          pyDictGet ci "CompanyAddr" .null with
                    | .ok cn, .ok ln, .ok ca =>
                        (.obj [("data", .obj [("company", .obj
                           [("companyName", cn), ("legalName", ln),
                            ("companyAddr", ca),
                            ("note", .str "This data was retrieved using REST API fallback")])])],
                         tok.cache, tok.oauthCalls, true)
                    | _, _, _ => (origResult, tok.cache, tok.oauthCalls, true)
          else (origResult, tok.cache, tok.oauthCalls, true)

/-- The processed variables of one tool invocation after realmId
injection (src lines 339-341). -/
def toolPv1 (cfg : Config) (query : String) (vars : Option (List (String × Json))) :
    List (String × Json) :=
  let pv0 := (normalizeQuery query vars).2
  if optTruthy cfg.companyId && !(dictLookup pv0 "realmId").isSome then
    pv0 ++ [("realmId", .str (cfg.companyId.getD ""))]
  else pv0

/-- The API-client call one tool invocation makes (src line 344). -/
def toolMake (cfg : Config) (env : Env) (cache : TokenCache) (query : String)
    (vars : Option (List (String × Json))) : MakeRes :=
  make_intuit_request cfg env.now env.oauth1 env.gql (normalizeQuery query vars).1
    (some (toolPv1 cfg query vars)) cache

/-- intuit_execute_graphql (src lines 185-383): normalize the query,
inject realmId when a company is configured, call make_intuit_request,
run the REST fallback when the result has errors, the company is
configured and the lower-cased query mentions company and companyname,
and JSON-serialize the final result. -/
def intuit_execute_graphql (cfg : Config) (env : Env) (cache : TokenCache)
    (query : String) (vars : Option (List (String × Json))) : ToolRes :=
  let processed_query := (normalizeQuery query vars).1
  let mk := toolMake cfg env cache query vars
  match mk.val with
  | .error e => ⟨.error e, mk.cache, mk.oauthCalls, mk.gqlSent, false, false⟩
  | .ok result =>
      -- if "errors" in result and INTUIT_COMPANY_ID:
      match pyContains "errors" result with
      | .error e => ⟨.error e, mk.cache, mk.oauthCalls, mk.gqlSent, false, false⟩
      | .ok hasErrs =>
          if hasErrs && optTruthy cfg.companyId then
            -- if "company" in processed_query.lower() and "companyname" in ...
            match pyLowerMethod processed_query with
            | .error e => ⟨.error e, mk.cache, mk.oauthCalls, mk.gqlSent, false, false⟩
            | .ok lowq =>
                if strContains "company" lowq && strContains "companyname" lowq then
                  let fb := companyFallback cfg env.now env.oauth2 env.rest mk.cache result
                  ⟨.ok (dumpJ fb.1), fb.2.1, mk.oauthCalls + fb.2.2.1, mk.gqlSent,
                   true, fb.2.2.2⟩
                else ⟨.ok (dumpJ result), mk.cache, mk.oauthCalls, mk.gqlSent, false, false⟩
          else ⟨.ok (dumpJ result), mk.cache, mk.oauthCalls, mk.gqlSent, false, false⟩

/- ## Module startup -/

/-- What loading the module does for a given credential configuration. -/
inductive StartupOutcome where
  | crashed (msg : String)
  | reportedErrorNoServe : StartupOutcome
  | served : StartupOutcome
deriving DecidableEq

/-- The slice cred[:5] inside the startup debug print: slicing None
raises TypeError. -/
def pyPrefixFive (v : Option String) : Except PyExn String :=
  match v with
  | none => .error (.otherExn "TypeError: NoneType object is not subscriptable")
  | some s => .ok (strTake s 5)

/-- Module load and the __main__ guard (src lines 21-28 and 385-396):
the three debug prints slice each credential before the credential
check runs; with all credentials present but falsy the ERROR and FATAL
messages are printed and the server is not started; with all truthy
the server runs. -/
def moduleStartup (cid cs rt : Option String) : StartupOutcome :=
  match pyPrefixFive cid with
  | .error e => .crashed (match e with
      | .otherExn m => m
      | .requestError m => m
      | .httpStatusError st _ => "HTTPStatusError " ++ toString st)
  | .ok _ =>
      match pyPrefixFive cs with
      | .error e => .crashed (match e with
          | .otherExn m => m
          | .requestError m => m
          | .httpStatusError st _ => "HTTPStatusError " ++ toString st)
      | .ok _ =>
          match pyPrefixFive rt with
          | .error e => .crashed (match e with
              | .otherExn m => m
              | .requestError m => m
              | .httpStatusError st _ => "HTTPStatusError " ++ toString st)
          | .ok _ =>
              if optTruthy cid && optTruthy cs && optTruthy rt then .served
              else .reportedErrorNoServe

/- ## Concrete fixtures used by witnesses and counterexamples -/

/-- A configuration with all three credentials and a company id set. -/
def cfgFull : Config := ⟨some "id123", some "sec45", some "ref78", some "913035"⟩

/-- A configuration with credentials set but no company id. -/
def cfgNoCompany : Config := ⟨some "id123", some "sec45", some "ref78", none⟩

/-- A successful OAuth refresh response. -/
def oauthGood : NetResult :=
  .httpResp 200 "\x7b\"access_token\": \"newtok\", \"expires_in\": 3600\x7d"

/-- A successful GraphQL response carrying data and no errors. -/
def gqlData : NetResult := .httpResp 200 "\x7b\"data\": null\x7d"

/-- A successful but empty REST response. -/
def restEmpty : NetResult := .httpResp 200 "\x7b\x7d"

/-- A benign environment: fresh time zero, working OAuth, a data-only
GraphQL answer and an empty REST answer. -/
def envPlain : Env := ⟨0, oauthGood, oauthGood, gqlData, restEmpty⟩

/-- A 200 GraphQL answer whose JSON body is the bare string errors. -/
def gqlStrErrors : NetResult := .httpResp 200 "\"errors\""

/-- A 200 REST company-info answer naming Acme. -/
def restAcme : NetResult :=
  .httpResp 200 "\x7b\"CompanyInfo\": \x7b\"CompanyName\": \"Acme\"\x7d\x7d"

/-- Environment where the GraphQL endpoint answers with a JSON string. -/
def envStrResult : Env := ⟨0, oauthGood, oauthGood, gqlStrErrors, restAcme⟩

/-- A 200 GraphQL answer reporting a GraphQL-level error. -/
def gqlErrors : NetResult :=
  .httpResp 200 "\x7b\"errors\": [\x7b\"message\": \"fail\"\x7d]\x7d"

/-- Environment where GraphQL reports errors and REST answers Acme. -/
def envFallback : Env := ⟨0, oauthGood, oauthGood, gqlErrors, restAcme⟩

/- ## Claim C1 -/

/-- Claim C1 as stated is false: a present but empty cached token
(token_cache["access_token"] = "") whose expiry 1000 far exceeds
now + 60 = 60 is not returned; the truthiness test fails and a full
OAuth refresh exchange runs instead, mutating the cache. -/
theorem c1_counterexample :
    (some (Json.str "")).isSome = true ∧ ((1000 : Int) > 0 + 60) ∧
    (get_access_token cfgFull 0 oauthGood ⟨some (.str ""), 1000⟩).oauthCalls = 1 ∧
    (get_access_token cfgFull 0 oauthGood ⟨some (.str ""), 1000⟩).val = .ok (.str "newtok") ∧
    (get_access_token cfgFull 0 oauthGood ⟨some (.str ""), 1000⟩).cache.expires_at = 3600 :=
  ⟨rfl, by decide, rfl, rfl, rfl⟩

/-- Claim C1 amended: if the cached access token is present, truthy
(non-empty) and its expiry exceeds now + 60, it is returned unchanged
with no OAuth call and no cache mutation; otherwise, provided the three
credentials are configured, exactly one OAuth exchange runs, and when
its response is a 2xx whose body decodes to an object with an
access_token and an integral expires_in, the cache is replaced
wholesale with the new token and expiry now + expires_in. -/
theorem c1_token_provider_cache_policy
    (cfg : Config) (now : Int) (oauthResp : NetResult) (cache : TokenCache) :
    (∀ t : Json, cache.access_token = some t → t.truthy = true →
      cache.expires_at > now + 60 →
      get_access_token cfg now oauthResp cache = ⟨.ok t, cache, 0⟩) ∧
    (¬(cacheTokenTruthy cache = true ∧ cache.expires_at > now + 60) →
      credsOk cfg = true →
      (get_access_token cfg now oauthResp cache).oauthCalls = 1 ∧
      (∀ st text td tok n,
        oauthResp = .httpResp st text → 200 ≤ st → st < 300 →
        json_loads text = some td →
        pyGetItem td "access_token" = .ok tok →
        pyGetItem td "expires_in" = .ok (.num n) →
        get_access_token cfg now oauthResp cache = ⟨.ok tok, ⟨some tok, now + n⟩, 1⟩)) := by
  constructor
  · intro t ht htr hgt
    have h1 : cacheTokenTruthy cache = true := by
      simp [cacheTokenTruthy, ht, htr]
    simp [get_access_token, h1, hgt, ht]
  · intro hnot hcreds
    have hcond : (cacheTokenTruthy cache && decide (cache.expires_at > now + 60)) = false := by
      cases hct : cacheTokenTruthy cache with
      | false => simp
      | true =>
          simp only [Bool.true_and]
          apply decide_eq_false
          intro hgt
          exact hnot ⟨hct, hgt⟩
    constructor
    · simp only [get_access_token, hcond, Bool.false_eq_true, if_false, hcreds,
        Bool.not_true]
      cases oauthResp with
      | reqError m => rfl
      | httpResp st text =>
          by_cases h2 : 200 ≤ st ∧ st < 300
          · simp only [if_pos h2]
            cases hjs : json_loads text with
            | none => rfl
            | some td =>
                cases hat : pyGetItem td "access_token" with
                | error e => simp [hat]
                | ok tok =>
                    cases hei : pyGetItem td "expires_in" with
                    | error e => simp [hat, hei]
                    | ok ev => cases ev <;> simp [hat, hei]
          · simp only [if_neg h2]
    · intro st text td tok n hresp h2a h2b hjs hat hei
      subst hresp
      simp only [get_access_token, hcond, Bool.false_eq_true, if_false, hcreds,
        Bool.not_true, if_pos (And.intro h2a h2b), hjs, hat, hei]

/-- Witness for the amended C1: a truthy cached token with distant
expiry is returned unchanged without a network call, and from an empty
cache which fails the margin check, a refresh replaces the cache
wholesale. -/
theorem c1_token_provider_cache_policy_witness :
    get_access_token cfgFull 0 oauthGood ⟨some (.str "cached"), 100⟩ =
      ⟨.ok (.str "cached"), ⟨some (.str "cached"), 100⟩, 0⟩ ∧
    get_access_token cfgFull 0 oauthGood token_cache =
      ⟨.ok (.str "newtok"), ⟨some (.str "newtok"), 3600⟩, 1⟩ :=
  ⟨(c1_token_provider_cache_policy cfgFull 0 oauthGood ⟨some (.str "cached"), 100⟩).1
      (.str "cached") rfl rfl (by decide),
   ((c1_token_provider_cache_policy cfgFull 0 oauthGood token_cache).2
      (by simp [token_cache, cacheTokenTruthy]) rfl).2
      200 "\x7b\"access_token\": \"newtok\", \"expires_in\": 3600\x7d"
      (.obj [("access_token", .str "newtok"), ("expires_in", .num 3600)])
      (.str "newtok") 3600 rfl (by decide) (by decide) rfl rfl rfl⟩

/- ## Claims C5 and C6 -/

/-- The cached-token check of get_access_token computes false whenever
the cached token is not truthy or the 60 second margin fails. -/
theorem cache_check_false {cache : TokenCache} {now : Int}
    (hmiss : ¬(cacheTokenTruthy cache = true ∧ cache.expires_at > now + 60)) :
    (cacheTokenTruthy cache && decide (cache.expires_at > now + 60)) = false := by
  cases hct : cacheTokenTruthy cache with
  | false => simp
  | true =>
      simp only [Bool.true_and]
      apply decide_eq_false
      intro hgt
      exact hmiss ⟨hct, hgt⟩

/-- Claim C5 as stated is false: an OAuth exchange answered 200 with a
body holding an access_token but no expires_in fails (KeyError), yet
the cache is left PARTIALLY updated: the new access token is stored
while expires_at keeps its previous value. -/
theorem c5_counterexample :
    (get_access_token cfgFull 0 (.httpResp 200 "\x7b\"access_token\": \"t\"\x7d")
        token_cache).val = .error (.otherExn "KeyError: expires_in") ∧
    (get_access_token cfgFull 0 (.httpResp 200 "\x7b\"access_token\": \"t\"\x7d")
        token_cache).cache.access_token = some (.str "t") ∧
    (get_access_token cfgFull 0 (.httpResp 200 "\x7b\"access_token\": \"t\"\x7d")
        token_cache).cache.expires_at = token_cache.expires_at ∧
    token_cache.access_token = none :=
  ⟨rfl, rfl, rfl, rfl⟩

/-- Claim C5 amended: on the refresh path every failure occurring
before the access_token assignment (missing credentials, transport
error, non-2xx status, undecodable body, missing access_token key)
leaves the cache unchanged; a success stores token and expiry together
from the same response; but a failure between the two assignments
(access_token present, expires_in missing or invalid) stores the new
access token while keeping the old expires_at. -/
theorem c5_cache_update_discipline
    (cfg : Config) (now : Int) (oauthResp : NetResult) (cache : TokenCache)
    (hmiss : ¬(cacheTokenTruthy cache = true ∧ cache.expires_at > now + 60)) :
    (credsOk cfg = false →
      get_access_token cfg now oauthResp cache =
        ⟨.error (.otherExn "Missing required Intuit OAuth credentials"), cache, 0⟩) ∧
    (∀ m, credsOk cfg = true → oauthResp = .reqError m →
      get_access_token cfg now oauthResp cache = ⟨.error (.requestError m), cache, 1⟩) ∧
    (∀ st text, credsOk cfg = true → oauthResp = .httpResp st text →
      ¬(200 ≤ st ∧ st < 300) →
      get_access_token cfg now oauthResp cache =
        ⟨.error (.httpStatusError st text), cache, 1⟩) ∧
    (∀ st text, credsOk cfg = true → oauthResp = .httpResp st text →
      (200 ≤ st ∧ st < 300) → json_loads text = none →
      get_access_token cfg now oauthResp cache =
        ⟨.error (.otherExn "JSONDecodeError: Expecting value"), cache, 1⟩) ∧
    (∀ st text td e, credsOk cfg = true → oauthResp = .httpResp st text →
      (200 ≤ st ∧ st < 300) → json_loads text = some td →
      pyGetItem td "access_token" = .error e →
      get_access_token cfg now oauthResp cache = ⟨.error e, cache, 1⟩) ∧
    (∀ st text td tok e, credsOk cfg = true → oauthResp = .httpResp st text →
      (200 ≤ st ∧ st < 300) → json_loads text = some td →
      pyGetItem td "access_token" = .ok tok →
      pyGetItem td "expires_in" = .error e →
      get_access_token cfg now oauthResp cache =
        ⟨.error e, ⟨some tok, cache.expires_at⟩, 1⟩) ∧
    (∀ st text td tok n, credsOk cfg = true → oauthResp = .httpResp st text →
      (200 ≤ st ∧ st < 300) → json_loads text = some td →
      pyGetItem td "access_token" = .ok tok →
      pyGetItem td "expires_in" = .ok (.num n) →
      get_access_token cfg now oauthResp cache = ⟨.ok tok, ⟨some tok, now + n⟩, 1⟩) := by
  have hcond := cache_check_false hmiss
  refine ⟨?_, ?_, ?_, ?_, ?_, ?_, ?_⟩
  · intro hcf
    simp [get_access_token, hcond, hcf]
  · intro m hcr hresp
    subst hresp
    simp [get_access_token, hcond, hcr]
  · intro st text hcr hresp h2
    subst hresp
    simp only [get_access_token, hcond, Bool.false_eq_true, if_false, hcr,
      Bool.not_true, if_neg h2]
  · intro st text hcr hresp h2 hjs
    subst hresp
    simp only [get_access_token, hcond, Bool.false_eq_true, if_false, hcr,
      Bool.not_true, if_pos h2, hjs]
  · intro st text td e hcr hresp h2 hjs hat
    subst hresp
    simp only [get_access_token, hcond, Bool.false_eq_true, if_false, hcr,
      Bool.not_true, if_pos h2, hjs, hat]
  · intro st text td tok e hcr hresp h2 hjs hat hei
    subst hresp
    simp only [get_access_token, hcond, Bool.false_eq_true, if_false, hcr,
      Bool.not_true, if_pos h2, hjs, hat, hei]
  · intro st text td tok n hcr hresp h2 hjs hat hei
    subst hresp
    simp only [get_access_token, hcond, Bool.false_eq_true, if_false, hcr,
      Bool.not_true, if_pos h2, hjs, hat, hei]

/-- Witness for the amended C5: from the empty initial cache a fully
well-formed OAuth response replaces the cache wholesale. -/
theorem c5_cache_update_discipline_witness :
    get_access_token cfgFull 5 oauthGood token_cache =
      ⟨.ok (.str "newtok"), ⟨some (.str "newtok"), 5 + 3600⟩, 1⟩ :=
  ((c5_cache_update_discipline cfgFull 5 oauthGood token_cache
      (by simp [token_cache, cacheTokenTruthy])).2.2.2.2.2.2)
    200 "\x7b\"access_token\": \"newtok\", \"expires_in\": 3600\x7d"
    (.obj [("access_token", .str "newtok"), ("expires_in", .num 3600)])
    (.str "newtok") 3600 rfl rfl ⟨by decide, by decide⟩ rfl rfl rfl

/-- Claim C6 as stated is false: a refresh whose OAuth response reports
expires_in = 10 returns that token although its stored expiry, 10
seconds from the call, does not exceed the call time plus 60 seconds. -/
theorem c6_counterexample :
    (get_access_token cfgFull 0
        (.httpResp 200 "\x7b\"access_token\": \"t2\", \"expires_in\": 10\x7d")
        token_cache).val = .ok (.str "t2") ∧
    (get_access_token cfgFull 0
        (.httpResp 200 "\x7b\"access_token\": \"t2\", \"expires_in\": 10\x7d")
        token_cache).cache.expires_at = 10 ∧
    ¬((10 : Int) > 0 + 60) :=
  ⟨rfl, rfl, by decide⟩

/-- Claim C6 amended: a token served from the cache always has expiry
beyond now + 60 (that is exactly the branch condition); a freshly
refreshed token has expiry now + expires_in, which exceeds now + 60
exactly when the OAuth-reported expires_in exceeds 60 — the code
enforces no minimum on the refresh path. -/
theorem c6_token_validity_margin
    (cfg : Config) (now : Int) (oauthResp : NetResult) (cache : TokenCache) :
    (∀ t : Json, cache.access_token = some t → t.truthy = true →
      cache.expires_at > now + 60 →
      (get_access_token cfg now oauthResp cache).val = .ok t ∧
      (get_access_token cfg now oauthResp cache).cache.expires_at > now + 60) ∧
    (∀ st text td tok n,
      ¬(cacheTokenTruthy cache = true ∧ cache.expires_at > now + 60) →
      credsOk cfg = true → oauthResp = .httpResp st text → 200 ≤ st → st < 300 →
      json_loads text = some td →
      pyGetItem td "access_token" = .ok tok →
      pyGetItem td "expires_in" = .ok (.num n) →
      (get_access_token cfg now oauthResp cache).val = .ok tok ∧
      (get_access_token cfg now oauthResp cache).cache.expires_at = now + n ∧
      (n > 60 → (get_access_token cfg now oauthResp cache).cache.expires_at > now + 60)) := by
  constructor
  · intro t ht htr hgt
    have h1 : cacheTokenTruthy cache = true := by
      simp [cacheTokenTruthy, ht, htr]
    simp [get_access_token, h1, hgt, ht]
  · intro st text td tok n hmiss hcr hresp h2a h2b hjs hat hei
    subst hresp
    have hcond := cache_check_false hmiss
    simp only [get_access_token, hcond, Bool.false_eq_true, if_false, hcr,
      Bool.not_true, if_pos (And.intro h2a h2b), hjs, hat, hei]
    exact ⟨trivial, trivial, fun _ => by omega⟩

/-- Witness for the amended C6: a truthy cached token with expiry 200
is returned with its margin intact, and a refresh reporting
expires_in = 3600 yields expiry now + 3600 beyond the margin. -/
theorem c6_token_validity_margin_witness :
    ((get_access_token cfgFull 0 oauthGood ⟨some (.str "cached"), 200⟩).val =
        .ok (.str "cached") ∧
      (get_access_token cfgFull 0 oauthGood ⟨some (.str "cached"), 200⟩).cache.expires_at >
        0 + 60) ∧
    ((get_access_token cfgFull 0 oauthGood token_cache).val = .ok (.str "newtok") ∧
      (get_access_token cfgFull 0 oauthGood token_cache).cache.expires_at = 0 + 3600 ∧
      ((3600 : Int) > 60 →
        (get_access_token cfgFull 0 oauthGood token_cache).cache.expires_at > 0 + 60)) :=
  ⟨(c6_token_validity_margin cfgFull 0 oauthGood ⟨some (.str "cached"), 200⟩).1
      (.str "cached") rfl rfl (by decide),
   (c6_token_validity_margin cfgFull 0 oauthGood token_cache).2
      200 "\x7b\"access_token\": \"newtok\", \"expires_in\": 3600\x7d"
      (.obj [("access_token", .str "newtok"), ("expires_in", .num 3600)])
      (.str "newtok") 3600 (by simp [token_cache, cacheTokenTruthy]) rfl rfl
      (by decide) (by decide) rfl rfl rfl⟩

/- ## Claim C9 -/

/-- Claim C9: with any required credential unset the module-level debug
print slices None and crashes with an uncaught TypeError before the
credential check at line 27 can report the configuration error; the
reporting path is reachable only for present-but-empty credentials; with
all credentials set the server runs. -/
theorem c9_startup_crash :
    moduleStartup none none none =
      .crashed "TypeError: NoneType object is not subscriptable" ∧
    moduleStartup none none none ≠ .reportedErrorNoServe ∧
    moduleStartup (some "") (some "") (some "") = .reportedErrorNoServe ∧
    moduleStartup (some "id") (some "sec") (some "ref") = .served :=
  ⟨rfl, by decide, rfl, rfl⟩

/- ## Claim C2 -/

/-- Claim C2: a JSON-wrapped input whose object carries both a query
and a variables member is unwrapped to the nested query, but the nested
variables are dropped: the guard at line 329 tests processed_variables
is None immediately after line 321 assigned it (variables or empty
dict), so the branch never runs and the payload goes out without the
nested variables. -/
theorem c2_nested_variables_dropped :
    json_loads "\x7b\"query\": \"query Q \x7b a \x7d\", \"variables\": \x7b\"x\": 1\x7d\x7d" =
      some (.obj [("query", .str "query Q \x7b a \x7d"),
                  ("variables", .obj [("x", .num 1)])]) ∧
    (intuit_execute_graphql cfgNoCompany envPlain token_cache
        "\x7b\"query\": \"query Q \x7b a \x7d\", \"variables\": \x7b\"x\": 1\x7d\x7d"
        none).gqlSent =
      some ⟨.str "query Q \x7b a \x7d", none⟩ ∧
    (intuit_execute_graphql cfgNoCompany envPlain token_cache
        "\x7b\"query\": \"query Q \x7b a \x7d\", \"variables\": \x7b\"x\": 1\x7d\x7d"
        none).val = .ok "\x7b\"data\": null\x7d" :=
  ⟨rfl, rfl, rfl⟩

/- ## Claims C4 and C10 -/

/-- Claim C4 as stated is false: an HTTP 400 whose JSON body holds an
EMPTY errors array makes the status-error parser raise IndexError from
inside the except-handler, which the sibling generic handler cannot
catch, so make_intuit_request raises instead of returning an envelope. -/
theorem c4_counterexample :
    (make_intuit_request cfgFull 0 oauthGood (.httpResp 400 "\x7b\"errors\": []\x7d")
        (.str "q") (some []) token_cache).val =
      .error (.otherExn "IndexError: list index out of range") :=
  rfl

/-- Claim C4 amended: with a token in hand and a string query, a
transport failure yields the HTTP Request Error envelope; a non-2xx
status whose detail extraction succeeds yields the status envelope, the
extracted detail being the status code followed by errors[0].message
(hence HTTP 400 with message Bad field yields a message containing Bad
field); a 2xx answer with an undecodable body yields the generic
unexpected-error envelope; but when the detail extraction itself raises
(see C10) make_intuit_request raises rather than returning an envelope. -/
theorem c4_error_envelopes
    (cfg : Config) (now : Int) (oauthResp gqlResp : NetResult) (qs : String)
    (vs : Option (List (String × Json))) (cache : TokenCache) (tok : Json)
    (htok : (get_access_token cfg now oauthResp cache).val = .ok tok) :
    (∀ m, gqlResp = .reqError m →
      (make_intuit_request cfg now oauthResp gqlResp (.str qs) vs cache).val =
        .ok (errEnvelope ("HTTP Request Error connecting to Intuit: " ++ m))) ∧
    (∀ st text d, gqlResp = .httpResp st text → ¬(200 ≤ st ∧ st < 300) →
      statusErrorDetail st text = .ok d →
      (make_intuit_request cfg now oauthResp gqlResp (.str qs) vs cache).val =
        .ok (errEnvelope d)) ∧
    (∀ st text er errsVal first msgv,
      json_loads text = some er →
      pyContains "errors" er = .ok true →
      pyGetItem er "errors" = .ok errsVal →
      pyIndexZero errsVal = .ok first →
      pyGetItem first "message" = .ok (.str msgv) →
      statusErrorDetail st text =
        .ok ("HTTP Status Error: " ++ toString st ++ " - " ++ msgv)) ∧
    (∀ st text, gqlResp = .httpResp st text → (200 ≤ st ∧ st < 300) →
      json_loads text = none →
      (make_intuit_request cfg now oauthResp gqlResp (.str qs) vs cache).val =
        .ok (errEnvelope "An unexpected error occurred: JSONDecodeError: Expecting value")) := by
  refine ⟨?_, ?_, ?_, ?_⟩
  · intro m hresp
    subst hresp
    simp [make_intuit_request, htok, pySliceJson, handleMakeExn]
  · intro st text d hresp hst hdet
    subst hresp
    simp [make_intuit_request, htok, pySliceJson, if_neg hst, handleMakeExn, hdet]
  · intro st text er errsVal first msgv hjs hcont hget hidx hmsg
    simp only [statusErrorDetail, hjs, hcont, hget, hidx, hmsg, pyStrOf]
  · intro st text hresp h2 hjs
    subst hresp
    simp [make_intuit_request, htok, pySliceJson, if_pos h2, hjs, handleMakeExn]

/-- Witness for the amended C4: the HTTP 400 / Bad field scenario ends
in the envelope whose message contains Bad field, starting from a warm
cache. -/
theorem c4_error_envelopes_witness :
    (make_intuit_request cfgFull 0 oauthGood
        (.httpResp 400 "\x7b\"errors\": [\x7b\"message\": \"Bad field\"\x7d]\x7d")
        (.str "q") (some []) ⟨some (.str "tok"), 1000⟩).val =
      .ok (errEnvelope "HTTP Status Error: 400 - Bad field") :=
  (c4_error_envelopes cfgFull 0 oauthGood
      (.httpResp 400 "\x7b\"errors\": [\x7b\"message\": \"Bad field\"\x7d]\x7d")
      "q" (some []) ⟨some (.str "tok"), 1000⟩ (.str "tok") rfl).2.1
    400 "\x7b\"errors\": [\x7b\"message\": \"Bad field\"\x7d]\x7d"
    "HTTP Status Error: 400 - Bad field" rfl (by decide) rfl

/-- Claim C10 as stated is false: a non-2xx response whose first error
object lacks a message key does not fall through to the generic
handler; the KeyError raised inside the status-error except-handler
escapes make_intuit_request entirely. -/
theorem c10_counterexample :
    (make_intuit_request cfgFull 0 oauthGood
        (.httpResp 502 "\x7b\"errors\": [\x7b\"detail\": \"x\"\x7d]\x7d")
        (.str "q") (some []) token_cache).val =
      .error (.otherExn "KeyError: message") :=
  rfl

/-- Claim C10 amended: when the status-error detail extraction raises
(empty errors array gives IndexError, a first element without message
gives KeyError), the exception escapes make_intuit_request instead of
producing any envelope, because only json.JSONDecodeError is caught
inside the parser and an exception raised inside an except-handler is
not caught by the sibling generic handler. -/
theorem c10_status_parser_exception_escapes
    (cfg : Config) (now : Int) (oauthResp : NetResult) (st : Nat) (text qs : String)
    (vs : Option (List (String × Json))) (cache : TokenCache) (tok : Json) (e : PyExn)
    (htok : (get_access_token cfg now oauthResp cache).val = .ok tok)
    (hst : ¬(200 ≤ st ∧ st < 300))
    (hdet : statusErrorDetail st text = .error e) :
    (make_intuit_request cfg now oauthResp (.httpResp st text) (.str qs) vs cache).val =
      .error e ∧
    (∀ st2 : Nat, ∀ text2 : String,
      json_loads text2 = some (.obj [("errors", .arr [])]) →
      statusErrorDetail st2 text2 =
        .error (.otherExn "IndexError: list index out of range")) ∧
    (∀ st3 : Nat, ∀ text3 : String, ∀ kvs : List (String × Json),
      json_loads text3 = some (.obj [("errors", .arr [.obj kvs])]) →
      dictLookup kvs "message" = none →
      statusErrorDetail st3 text3 = .error (.otherExn "KeyError: message")) := by
  refine ⟨?_, ?_, ?_⟩
  · simp [make_intuit_request, htok, pySliceJson, if_neg hst, handleMakeExn, hdet]
  · intro st2 text2 hjs
    simp [statusErrorDetail, hjs, pyContains, dictLookup, pyGetItem, pyIndexZero]
  · intro st3 text3 kvs hjs hmsg
    simp [statusErrorDetail, hjs, pyContains, dictLookup, pyGetItem, pyIndexZero, hmsg]

/-- Witness for the amended C10: HTTP 503 with an empty errors array
makes the IndexError escape make_intuit_request. -/
theorem c10_status_parser_exception_escapes_witness :
    (make_intuit_request cfgFull 0 oauthGood (.httpResp 503 "\x7b\"errors\": []\x7d")
        (.str "q2") (some []) ⟨some (.str "tok"), 1000⟩).val =
      .error (.otherExn "IndexError: list index out of range") :=
  (c10_status_parser_exception_escapes cfgFull 0 oauthGood 503 "\x7b\"errors\": []\x7d"
      "q2" (some []) ⟨some (.str "tok"), 1000⟩ (.str "tok")
      (.otherExn "IndexError: list index out of range") rfl (by decide) rfl).1

/- ## Helper lemmas about make_intuit_request and normalization -/

/-- Every value handleMakeExn returns normally is an error envelope, in
particular an object on which membership testing cannot raise. -/
theorem handle_ok_membership (e : PyExn) (r : Json) (he : handleMakeExn e = .ok r) :
    ∃ b, pyContains "errors" r = .ok b := by
  cases e with
  | requestError m =>
      simp only [handleMakeExn, Except.ok.injEq] at he
      subst he
      exact ⟨true, rfl⟩
  | httpStatusError st text =>
      cases hd : statusErrorDetail st text with
      | error e2 => simp [handleMakeExn, hd] at he
      | ok d =>
          simp only [handleMakeExn, hd, Except.ok.injEq] at he
          subst he
          exact ⟨true, rfl⟩
  | otherExn m =>
      simp only [handleMakeExn, Except.ok.injEq] at he
      subst he
      exact ⟨true, rfl⟩

/-- Every value make_intuit_request returns normally supports the
Python membership test "errors" in result: either it came through the
in-try check at line 158 (which would itself have raised otherwise) or
it is an error envelope from a handler. -/
theorem make_ok_membership (cfg : Config) (now : Int) (oauthResp gqlResp : NetResult)
    (query : Json) (vs : Option (List (String × Json))) (cache : TokenCache) (r : Json)
    (h : (make_intuit_request cfg now oauthResp gqlResp query vs cache).val = .ok r) :
    ∃ b, pyContains "errors" r = .ok b := by
  simp only [make_intuit_request] at h
  cases htok : (get_access_token cfg now oauthResp cache).val with
  | error e =>
      simp only [htok] at h
      exact handle_ok_membership e r h
  | ok atok =>
      simp only [htok] at h
      cases hsl : pySliceJson query 100 with
      | error e =>
          simp only [hsl] at h
          exact handle_ok_membership e r h
      | ok sl =>
          simp only [hsl] at h
          cases gqlResp with
          | reqError m =>
              simp only [] at h
              exact handle_ok_membership _ r h
          | httpResp st text =>
              by_cases h2 : 200 ≤ st ∧ st < 300
              · simp only [if_pos h2] at h
                cases hjs : json_loads text with
                | none =>
                    simp only [hjs] at h
                    exact handle_ok_membership _ r h
                | some result =>
                    simp only [hjs] at h
                    cases hcont : pyContains "errors" result with
                    | error e =>
                        simp only [hcont] at h
                        exact handle_ok_membership e r h
                    | ok b =>
                        simp only [hcont, Except.ok.injEq] at h
                        subst h
                        exact ⟨b, hcont⟩
              · simp only [if_neg h2] at h
                exact handle_ok_membership _ r h

/-- The processed variables leaving normalization are always the
caller's variables (or the empty dict): the nested-variables branch is
dead because processed_variables was assigned just before the is None
test. -/
theorem normalize_vars (query : String) (vs : Option (List (String × Json))) :
    (normalizeQuery query vs).2 = vs.getD [] := by
  simp only [normalizeQuery]
  cases hj : json_loads query with
  | none => rfl
  | some j =>
      cases j with
      | obj kvs =>
          cases hq : dictLookup kvs "query" with
          | none => simp [hq]
          | some qv => simp [hq]
      | null => rfl
      | bool b => rfl
      | num n => rfl
      | str s => rfl
      | arr xs => rfl

/-- Lookup distributes over append: a hit in the front shadows the
back. -/
theorem dictLookup_append_isSome (d e : List (String × Json)) (k : String)
    (h : (dictLookup d k).isSome = true) :
    dictLookup (d ++ e) k = dictLookup d k := by
  induction d with
  | nil => simp [dictLookup] at h
  | cons hd tl ih =>
      obtain ⟨k2, v⟩ := hd
      by_cases hk : k2 = k
      · simp [dictLookup, hk]
      · simp only [dictLookup, if_neg hk] at h ⊢
        exact ih h

/-- Lookup distributes over append: a miss in the front defers to the
back. -/
theorem dictLookup_append_none (d e : List (String × Json)) (k : String)
    (h : dictLookup d k = none) :
    dictLookup (d ++ e) k = dictLookup e k := by
  induction d with
  | nil => rfl
  | cons hd tl ih =>
      obtain ⟨k2, v⟩ := hd
      by_cases hk : k2 = k
      · simp [dictLookup, hk] at h
      · simp only [dictLookup, if_neg hk] at h ⊢
        exact ih h

/-- Whenever make_intuit_request recorded an outbound GraphQL request,
its payload is exactly payloadFinal. -/
theorem make_gqlSent_shape (cfg : Config) (now : Int) (oauthResp gqlResp : NetResult)
    (query : Json) (vs : Option (List (String × Json))) (cache : TokenCache) (p : Payload)
    (h : (make_intuit_request cfg now oauthResp gqlResp query vs cache).gqlSent = some p) :
    p = payloadFinal cfg query vs := by
  simp only [make_intuit_request] at h
  cases htok : (get_access_token cfg now oauthResp cache).val with
  | error e => simp [htok] at h
  | ok atok =>
      simp only [htok] at h
      cases hsl : pySliceJson query 100 with
      | error e => simp [hsl] at h
      | ok sl =>
          simp only [hsl] at h
          cases gqlResp with
          | reqError m =>
              simp only [Option.some.injEq] at h
              exact h.symm
          | httpResp st text =>
              by_cases h2 : 200 ≤ st ∧ st < 300
              · simp only [if_pos h2] at h
                cases hjs : json_loads text with
                | none =>
                    simp only [hjs, Option.some.injEq] at h
                    exact h.symm
                | some result =>
                    simp only [hjs] at h
                    cases hcont : pyContains "errors" result with
                    | error e =>
                        simp only [hcont, Option.some.injEq] at h
                        exact h.symm
                    | ok b =>
                        simp only [hcont, Option.some.injEq] at h
                        exact h.symm
              · simp only [if_neg h2, Option.some.injEq] at h
                exact h.symm

/-- The tool forwards the payload record of its API-client call
unchanged into its own result. -/
theorem tool_gqlSent_eq (cfg : Config) (env : Env) (cache : TokenCache)
    (query : String) (vs : Option (List (String × Json))) :
    (intuit_execute_graphql cfg env cache query vs).gqlSent =
      (toolMake cfg env cache query vs).gqlSent := by
  unfold intuit_execute_graphql
  cases hv : (toolMake cfg env cache query vs).val with
  | error e => simp only [hv]
  | ok r =>
      simp only [hv]
      cases hc : pyContains "errors" r with
      | error e2 => simp only [hc]
      | ok he =>
          simp only [hc]
          cases hb : (he && optTruthy cfg.companyId) with
          | false => simp only [hb, Bool.false_eq_true, if_false]
          | true =>
              simp only [hb, if_true]
              cases hl : pyLowerMethod (normalizeQuery query vs).1 with
              | error e3 => simp only [hl]
              | ok lowq =>
                  simp only [hl]
                  cases hs : (strContains "company" lowq && strContains "companyname" lowq) with
                  | false => simp only [hs, Bool.false_eq_true, if_false]
                  | true => simp only [hs, if_true]

/- ## Claim C3 -/

/-- Claim C3 as stated is false: the input pair with query the JSON
text containing a non-string query member and no variables, under a
configured company, makes the error-path heuristic call .lower() on the
number 5; the AttributeError escapes the tool entry point to the
caller instead of a JSON string being returned. -/
theorem c3_counterexample :
    (intuit_execute_graphql cfgFull envPlain token_cache "\x7b\"query\": 5\x7d" none).val =
      .error (.otherExn "AttributeError: object has no attribute lower") :=
  rfl

/-- Claim C3 amended: whenever the normalized query value is a string
and the API-client call returns an envelope rather than raising (which
it can fail to do, see C4 and C10), the tool returns the JSON
serialization of the final result object and no exception propagates. -/
theorem c3_tool_returns_json_string
    (cfg : Config) (env : Env) (cache : TokenCache) (query : String)
    (vs : Option (List (String × Json))) (qs : String) (r : Json)
    (hq : (normalizeQuery query vs).1 = .str qs)
    (hmk : (toolMake cfg env cache query vs).val = .ok r) :
    ∃ j, (intuit_execute_graphql cfg env cache query vs).val = .ok (dumpJ j) := by
  obtain ⟨b, hcont⟩ := make_ok_membership cfg env.now env.oauth1 env.gql
    (normalizeQuery query vs).1 (some (toolPv1 cfg query vs)) cache r hmk
  simp only [intuit_execute_graphql, hmk, hcont]
  cases hb : (b && optTruthy cfg.companyId) with
  | false =>
      simp only [hb, Bool.false_eq_true, if_false]
      exact ⟨r, rfl⟩
  | true =>
      simp only [hb, if_true, hq, pyLowerMethod]
      cases hs : (strContains "company" (pyLower qs) && strContains "companyname" (pyLower qs)) with
      | false =>
          simp only [hs, Bool.false_eq_true, if_false]
          exact ⟨r, rfl⟩
      | true =>
          simp only [hs, if_true]
          exact ⟨_, rfl⟩

/-- Witness for the amended C3: a plain raw query against a healthy
environment produces the serialized data envelope. -/
theorem c3_tool_returns_json_string_witness :
    ∃ j, (intuit_execute_graphql cfgNoCompany envPlain token_cache "query Z" none).val =
      .ok (dumpJ j) :=
  c3_tool_returns_json_string cfgNoCompany envPlain token_cache "query Z" none
    "query Z" (.obj [("data", .null)]) rfl rfl

/- ## Claim C8 -/

/-- Appending one entry to a dict keeps it non-empty. -/
theorem append_single_not_empty (L : List (String × Json)) (x : String × Json) :
    (L ++ [x]).isEmpty = false := by
  cases L <;> rfl

/-- Claim C8: with a configured (truthy) company id, every payload that
actually goes out to the GraphQL endpoint carries a variables mapping
with a realmId entry; a caller-supplied realmId is preserved, and every
other caller-supplied entry is looked up unchanged. -/
theorem c8_realmid_injection
    (cfg : Config) (env : Env) (cache : TokenCache) (query : String)
    (vs : Option (List (String × Json))) (c : String) (p : Payload)
    (hc : cfg.companyId = some c) (hcne : c ≠ "")
    (hsent : (intuit_execute_graphql cfg env cache query vs).gqlSent = some p) :
    ∃ pvars, p.vars = some pvars ∧
      (dictLookup pvars "realmId").isSome = true ∧
      (dictLookup (vs.getD []) "realmId" = none →
        dictLookup pvars "realmId" = some (.str c)) ∧
      (∀ r0, dictLookup (vs.getD []) "realmId" = some r0 →
        dictLookup pvars "realmId" = some r0) ∧
      (∀ k, k ≠ "realmId" → dictLookup pvars k = dictLookup (vs.getD []) k) := by
  have hce : c.isEmpty = false := by
    cases hce2 : c.isEmpty
    · rfl
    · exact absurd ((String.isEmpty_iff c).mp hce2) hcne
  have htr2 : optTruthy (some c) = true := by
    simp only [optTruthy, hce, Bool.not_false]
  have htr : optTruthy cfg.companyId = true := by rw [hc]; exact htr2
  rw [tool_gqlSent_eq] at hsent
  simp only [toolMake] at hsent
  have hp := make_gqlSent_shape cfg env.now env.oauth1 env.gql
    (normalizeQuery query vs).1 (some (toolPv1 cfg query vs)) cache p hsent
  subst hp
  cases hl : dictLookup (vs.getD []) "realmId" with
  | none =>
      have htp : toolPv1 cfg query vs = vs.getD [] ++ [("realmId", .str c)] := by
        simp [toolPv1, normalize_vars, htr, htr2, hl, hc]
      have hlook : dictLookup (vs.getD [] ++ [("realmId", Json.str c)]) "realmId" =
          some (.str c) := by
        rw [dictLookup_append_none _ _ _ hl]
        simp [dictLookup]
      have hfinal : payloadFinal cfg (normalizeQuery query vs).1
          (some (toolPv1 cfg query vs)) =
          ⟨(normalizeQuery query vs).1, some (vs.getD [] ++ [("realmId", .str c)])⟩ := by
        rw [htp]
        simp [payloadFinal, append_single_not_empty, htr, hlook]
      rw [hfinal]
      refine ⟨vs.getD [] ++ [("realmId", .str c)], rfl, ?_, ?_, ?_, ?_⟩
      · rw [hlook]; rfl
      · intro _
        exact hlook
      · intro r0 h0
        exact Option.noConfusion h0
      · intro k hk
        cases hk0 : dictLookup (vs.getD []) k with
        | some v0 =>
            rw [dictLookup_append_isSome _ _ _ (by rw [hk0]; rfl), hk0]
        | none =>
            rw [dictLookup_append_none _ _ _ hk0]
            have hkr : ¬("realmId" = k) := fun h => hk h.symm
            simp [dictLookup, hkr]
  | some r0 =>
      have htp : toolPv1 cfg query vs = vs.getD [] := by
        simp [toolPv1, normalize_vars, hl]
      have hne2 : (vs.getD []).isEmpty = false := by
        cases hv0 : vs.getD [] with
        | nil => rw [hv0] at hl; cases hl
        | cons a t => rfl
      have hfinal : payloadFinal cfg (normalizeQuery query vs).1
          (some (toolPv1 cfg query vs)) =
          ⟨(normalizeQuery query vs).1, some (vs.getD [])⟩ := by
        rw [htp]
        simp [payloadFinal, hne2, htr, hl]
      rw [hfinal]
      refine ⟨vs.getD [], rfl, ?_, ?_, ?_, ?_⟩
      · rw [hl]; rfl
      · intro h0
        exact Option.noConfusion h0
      · intro r1 h1
        cases h1
        exact hl
      · intro k _
        rfl

/-- Witness for C8: with the company id 913035 configured and caller
variables lacking realmId, the payload that went out carries realmId
913035 and the caller entry a unchanged. -/
theorem c8_realmid_injection_witness :
    ∃ pvars,
      (Payload.mk (Json.str "query Z") (some [("a", Json.num 2), ("realmId", Json.str "913035")])).vars =
        some pvars ∧
      (dictLookup pvars "realmId").isSome = true ∧
      (dictLookup ((some [("a", Json.num 2)] : Option (List (String × Json))).getD []) "realmId" = none →
        dictLookup pvars "realmId" = some (.str "913035")) ∧
      (∀ r0, dictLookup ((some [("a", Json.num 2)] : Option (List (String × Json))).getD []) "realmId" = some r0 →
        dictLookup pvars "realmId" = some r0) ∧
      (∀ k, k ≠ "realmId" →
        dictLookup pvars k =
          dictLookup ((some [("a", Json.num 2)] : Option (List (String × Json))).getD []) k) :=
  c8_realmid_injection cfgFull envPlain token_cache "query Z" (some [("a", Json.num 2)])
    "913035" ⟨.str "query Z", some [("a", Json.num 2), ("realmId", Json.str "913035")]⟩
    rfl (by decide) rfl

/- ## Claim C7 -/

/-- Claim C7 as stated is false: the trigger is the Python membership
test, not a key test; a 200 GraphQL body decoding to the string errors
has no errors key at all, yet the substring membership succeeds and the
fallback REST call is attempted. -/
theorem c7_counterexample :
    (intuit_execute_graphql cfgFull envStrResult token_cache
        "query \x7b company \x7b companyName \x7d \x7d" none).fallbackTried = true ∧
    (intuit_execute_graphql cfgFull envStrResult token_cache
        "query \x7b company \x7b companyName \x7d \x7d" none).restSent = true ∧
    (toolMake cfgFull envStrResult token_cache
        "query \x7b company \x7b companyName \x7d \x7d" none).val = .ok (.str "errors") ∧
    jsonHasKey (.str "errors") "errors" = false :=
  ⟨rfl, rfl, rfl, rfl⟩

/-- Claim C7 amended: the fallback try-block runs if and only if the
membership test "errors" in result succeeds (key containment for
objects, element membership for arrays, substring for strings), the
company id is truthy, and the lower-cased normalized query contains
company and companyname; when it runs, the final value is the
serialization of the companyFallback outcome, which replaces the result
by the hand-mapped company object exactly on a REST 200 with
extractable fields and keeps the original result on any failure. -/
theorem c7_rest_fallback_policy
    (cfg : Config) (env : Env) (cache : TokenCache) (query : String)
    (vs : Option (List (String × Json))) (qs : String) (r : Json) (he : Bool)
    (hq : (normalizeQuery query vs).1 = .str qs)
    (hmk : (toolMake cfg env cache query vs).val = .ok r)
    (hcont : pyContains "errors" r = .ok he) :
    ((intuit_execute_graphql cfg env cache query vs).fallbackTried =
      (he && optTruthy cfg.companyId &&
        (strContains "company" (pyLower qs) && strContains "companyname" (pyLower qs)))) ∧
    ((intuit_execute_graphql cfg env cache query vs).fallbackTried = true →
      (intuit_execute_graphql cfg env cache query vs).val =
        .ok (dumpJ (companyFallback cfg env.now env.oauth2 env.rest
          (toolMake cfg env cache query vs).cache r).1)) ∧
    ((intuit_execute_graphql cfg env cache query vs).fallbackTried = false →
      (intuit_execute_graphql cfg env cache query vs).val = .ok (dumpJ r)) ∧
    (∀ cache2 orig tk text rr ci cn ln ca,
      (get_access_token cfg env.now env.oauth2 cache2).val = .ok tk →
      env.rest = .httpResp 200 text →
      json_loads text = some rr →
      pyDictGet rr "CompanyInfo" (.obj []) = .ok ci →
      pyDictGet ci "CompanyName" .null = .ok cn →
      pyDictGet ci "LegalName" .null = .ok ln →
      pyDictGet ci "CompanyAddr" .null = .ok ca →
      (companyFallback cfg env.now env.oauth2 env.rest cache2 orig).1 =
        .obj [("data", .obj [("company", .obj
          [("companyName", cn), ("legalName", ln), ("companyAddr", ca),
           ("note", .str "This data was retrieved using REST API fallback")])])]) ∧
    (∀ cache2 orig st text, env.rest = .httpResp st text → st ≠ 200 →
      (companyFallback cfg env.now env.oauth2 env.rest cache2 orig).1 = orig) ∧
    (∀ cache2 orig m, env.rest = .reqError m →
      (companyFallback cfg env.now env.oauth2 env.rest cache2 orig).1 = orig) ∧
    (∀ cache2 orig e, (get_access_token cfg env.now env.oauth2 cache2).val = .error e →
      (companyFallback cfg env.now env.oauth2 env.rest cache2 orig).1 = orig) := by
  have main :
      ((intuit_execute_graphql cfg env cache query vs).fallbackTried =
        (he && optTruthy cfg.companyId &&
          (strContains "company" (pyLower qs) && strContains "companyname" (pyLower qs)))) ∧
      ((intuit_execute_graphql cfg env cache query vs).fallbackTried = true →
        (intuit_execute_graphql cfg env cache query vs).val =
          .ok (dumpJ (companyFallback cfg env.now env.oauth2 env.rest
            (toolMake cfg env cache query vs).cache r).1)) ∧
      ((intuit_execute_graphql cfg env cache query vs).fallbackTried = false →
        (intuit_execute_graphql cfg env cache query vs).val = .ok (dumpJ r)) := by
    simp only [intuit_execute_graphql, hmk, hcont]
    cases hb : (he && optTruthy cfg.companyId) with
    | false =>
        simp only [hb, Bool.false_eq_true, if_false]
        refine ⟨?_, ?_, ?_⟩
        · simp
        · intro h
          simp at h
        · intro _
          trivial
    | true =>
        simp only [hb, if_true, hq, pyLowerMethod]
        cases hs : (strContains "company" (pyLower qs) &&
            strContains "companyname" (pyLower qs)) with
        | false =>
            simp only [hs, Bool.false_eq_true, if_false]
            refine ⟨?_, ?_, ?_⟩
            · simp
            · intro h
              simp at h
            · intro _
              trivial
        | true =>
            simp only [hs, if_true]
            refine ⟨?_, ?_, ?_⟩
            · simp
            · intro _
              trivial
            · intro h
              simp at h
  refine ⟨main.1, main.2.1, main.2.2, ?_, ?_, ?_, ?_⟩
  · intro cache2 orig tk text rr ci cn ln ca htk hrest hjs hci hcn hln hca
    rw [hrest]
    simp only [companyFallback, htk, hjs, hci, hcn, hln, hca]
    simp
  · intro cache2 orig st text hrest hne
    rw [hrest]
    cases htk : (get_access_token cfg env.now env.oauth2 cache2).val with
    | error e => simp [companyFallback, htk]
    | ok tk => simp [companyFallback, htk, hne]
  · intro cache2 orig m hrest
    rw [hrest]
    cases htk : (get_access_token cfg env.now env.oauth2 cache2).val with
    | error e => simp [companyFallback, htk]
    | ok tk => simp [companyFallback, htk]
  · intro cache2 orig e htk
    simp [companyFallback, htk]

/-- Witness for the amended C7: against the errors-reporting GraphQL
environment with REST answering Acme, the fallback trigger equation is
exhibited at a company query, and the fallback replaces an original
result by the hand-mapped Acme object with the provenance note. -/
theorem c7_rest_fallback_policy_witness :
    ((intuit_execute_graphql cfgFull envFallback token_cache
        "query \x7b company \x7b companyName \x7d \x7d" none).fallbackTried =
      (true && optTruthy cfgFull.companyId &&
        (strContains "company" (pyLower "query \x7b company \x7b companyName \x7d \x7d") &&
         strContains "companyname" (pyLower "query \x7b company \x7b companyName \x7d \x7d")))) ∧
    (companyFallback cfgFull envFallback.now envFallback.oauth2 envFallback.rest
        token_cache (.obj [])).1 =
      .obj [("data", .obj [("company", .obj
        [("companyName", .str "Acme"), ("legalName", .null), ("companyAddr", .null),
         ("note", .str "This data was retrieved using REST API fallback")])])] :=
  ⟨(c7_rest_fallback_policy cfgFull envFallback token_cache
      "query \x7b company \x7b companyName \x7d \x7d" none
      "query \x7b company \x7b companyName \x7d \x7d"
      (.obj [("errors", .arr [.obj [("message", .str "fail")]])]) true
      rfl rfl rfl).1,
   (c7_rest_fallback_policy cfgFull envFallback token_cache
      "query \x7b company \x7b companyName \x7d \x7d" none
      "query \x7b company \x7b companyName \x7d \x7d"
      (.obj [("errors", .arr [.obj [("message", .str "fail")]])]) true
      rfl rfl rfl).2.2.2.1 token_cache (.obj []) (.str "newtok")
      "\x7b\"CompanyInfo\": \x7b\"CompanyName\": \"Acme\"\x7d\x7d"
      (.obj [("CompanyInfo", .obj [("CompanyName", .str "Acme")])])
      (.obj [("CompanyName", .str "Acme")])
      (.str "Acme") .null .null rfl rfl rfl rfl rfl rfl rfl⟩
